import Mathlib

/-!
Shallow embedding of the offset-discovery engine of otel-profiling-agent:
`src/tracer/tpbase.go` (`loadKernelCode`, `loadTPBaseOffset`) and
`src/interpreter/loaderinfo.go` (`NewLoaderInfo` and its accessors).

Bytes are modelled as `Nat` (each in `[0, 255]` when concrete), machine
integers as `Nat`, Go `([]T, error)` results as `Option (List Nat) × Option String`
pairs or `Except`-style sums, mirroring the Go convention that the error
path returns the zero value together with a non-nil error.
-/

set_option autoImplicit false

namespace OtelTPBase

/-- Modelled from the spec: an entry of the Kernel Symbol Table collaborator
(`libpf.SymbolMap`, not under `src/`): `lookup(name) → (address, size) | NotFound`. -/
structure Symbol where
  address : Nat
  size : Nat
deriving Repr, DecidableEq

/-- Modelled from the spec: a Pattern Analyzer (`tpbase.Analyzer`, not under `src/`):
an immutable record of a bound kernel function name and a pure
`decode(bytes) → (offset, err)` function. The Go `Analyze` returns a `uint32`
offset; here the offset is a `Nat`. -/
structure Analyzer where
  functionName : String
  analyze : List Nat → Except String Nat

/-- Error values produced by `loadTPBaseOffset`, modelled structurally.
`bridge` is an error returned unchanged from `loadKernelCode`
(`return 0, err`); `decodeFailed` is `fmt.Errorf("%w: %s", err, hex.Dump(code))`,
which wraps the analyzer's decode error and attaches a hex dump of the
extracted bytes (the dump is carried here as the byte list itself);
`noSymbolFound` is `errors.New("no supported symbol found")`;
`implausibleOffset v` is `fmt.Errorf("tpbase offset %v doesn't look sane", v)`. -/
inductive TPErr where
  | bridge (msg : String)
  | decodeFailed (msg : String) (dump : List Nat)
  | noSymbolFound
  | implausibleOffset (v : Nat)
deriving Repr, DecidableEq

/-- The `for _, analyzer := range tpbase.GetAnalyzers()` loop body of
`loadTPBaseOffset` (tpbase.go lines 101-118). `lookup` is the kernel symbol
table (`kernelSymbols.LookupSymbol`), `loadCode` abstracts the Extraction
Bridge `loadKernelCode coll maps` applied to a symbol address (only its
result is observable to the loop). The loop variable `tpbaseOffset` starts
at 0 and is only overwritten right before `break`, so falling off the end
of the list yields `.ok 0`; a lookup error means `continue`; a
`loadKernelCode` error is returned as-is (`return 0, err`); a decode error
is returned wrapped with the byte dump; a decode success breaks with that
value. -/
def analyzerLoop (lookup : String → Option Symbol)
    (loadCode : Nat → Except String (List Nat)) :
    List Analyzer → Except TPErr Nat
  | [] => .ok 0
  | a :: rest =>
    match lookup a.functionName with
    | none => analyzerLoop lookup loadCode rest
    | some sym =>
      match loadCode sym.address with
      | .error e => .error (.bridge e)
      | .ok code =>
        match a.analyze code with
        | .error e => .error (.decodeFailed e code)
        | .ok v => .ok v

/-- Function `loadTPBaseOffset` (tpbase.go lines 97-132): run the analyzer chain, then
the `tpbaseOffset == 0` not-found check, then the `[500, 20000]` sanity
bounds, returning Go's `(uint64, error)` pair as `Nat × Option TPErr`
(every error path returns offset 0). The analyzer list stands for the
result of `tpbase.GetAnalyzers()` (not under `src/`; the spec describes it
as a fixed priority-ordered list, passed here explicitly). -/
def loadTPBaseOffset (lookup : String → Option Symbol)
    (loadCode : Nat → Except String (List Nat))
    (analyzers : List Analyzer) : Nat × Option TPErr :=
  match analyzerLoop lookup loadCode analyzers with
  | .error e => (0, some e)
  | .ok tpbaseOffset =>
    if tpbaseOffset = 0 then
      (0, some .noSymbolFound)
    else if tpbaseOffset < 500 ∨ tpbaseOffset > 20000 then
      (0, some (.implausibleOffset tpbaseOffset))
    else
      (tpbaseOffset, none)

/-- Environment of one `loadKernelCode` call (tpbase.go lines 44-93): the
outcome of each external interaction, in program order. `codedumpBytes` is
modelled from the spec: the process-wide constant `support.CodedumpBytes`
(not under `src/`; the spec fixes no numeric value, only that the dump and
the output map value have exactly this length). `codeSlot` is the content
of the `codedump_code` map slot at the moment of the `Lookup` (after the
probe's guaranteed firing). `adjacentMem` models the process memory that
follows the 4-byte local `value0 uint32` on the stack: the clearing
`Update` passes `unsafe.Pointer(&value0)` for a map value of
`codedumpBytes` bytes, so the kernel copies any bytes beyond the first
four from that adjacent memory. -/
structure KEnv where
  codedumpBytes : Nat
  addrUpdateOk : Bool
  memlockOk : Bool
  progOk : Bool
  tracepointOk : Bool
  lookupOk : Bool
  clearOk : Bool
  codeSlot : List Nat
  adjacentMem : List Nat
deriving Repr, DecidableEq

/-- Kernel-side and process-side state touched by `loadKernelCode`:
the `codedump_addr` slot, whether the memlock rlimit is currently raised,
whether the restricted program object is open, whether the tracepoint
attachment is live, and the `codedump_code` slot contents. -/
structure KState where
  addrSlot : Option Nat
  memlockRaised : Bool
  progOpen : Bool
  attached : Bool
  codeSlot : List Nat
deriving Repr, DecidableEq

/-- Function `loadKernelCode` (tpbase.go lines 44-93), as a function from its
environment and the requested `functionAddress` to Go's `([]byte, error)`
result paired with the final state. Control flow mirrors the source:
1. `funcAddressMap.Update` writes the address into `codedump_addr`;
2. `rlimit.MaximizeMemlock` raises the memlock limit, `defer restoreRlimit`;
3. `cebpf.NewProgram` loads the program, `defer prog.Close`;
4. `link.Tracepoint` attaches it, `defer perfEvent.Close`;
5. `functionCode.Lookup` reads the `codedump_code` slot into a buffer of
   `codedumpBytes` bytes;
6. the clearing `functionCode.Update` overwrites the slot with
   `codedumpBytes` bytes taken from `unsafe.Pointer(&value0)` where
   `value0` is `uint32(0)`: four zero bytes followed by adjacent memory.
Each early `return` applies the deferred releases registered so far, in
LIFO order; the deferred releases also run on the success return. -/
def loadKernelCode (env : KEnv) (functionAddress : Nat) :
    (Option (List Nat) × Option String) × KState :=
  let s0 : KState :=
    { addrSlot := none, memlockRaised := false, progOpen := false,
      attached := false, codeSlot := env.codeSlot }
  if env.addrUpdateOk = false then
    ((none, some "failed to write codedump_addr"), s0)
  else
    let s1 := { s0 with addrSlot := some functionAddress }
    if env.memlockOk = false then
      ((none, some "failed to adjust rlimit"), s1)
    else
      let s2 := { s1 with memlockRaised := true }
      if env.progOk = false then
        ((none, some "failed to load tracepoint__sys_enter_bpf"),
          { s2 with memlockRaised := false })
      else
        let s3 := { s2 with progOpen := true }
        if env.tracepointOk = false then
          ((none, some "failed to configure tracepoint"),
            { s3 with progOpen := false, memlockRaised := false })
        else
          let s4 := { s3 with attached := true }
          if env.lookupOk = false then
            ((none, some "failed to get codedump"),
              { s4 with attached := false, progOpen := false,
                        memlockRaised := false })
          else
            let codeDump := s4.codeSlot
            if env.clearOk = false then
              ((none, some "failed to delete element from codedump_code"),
                { s4 with attached := false, progOpen := false,
                          memlockRaised := false })
            else
              let s5 := { s4 with
                codeSlot :=
                  (List.replicate 4 0 ++ env.adjacentMem).take env.codedumpBytes }
              ((some codeDump, none),
                { s5 with attached := false, progOpen := false,
                          memlockRaised := false })

end OtelTPBase

namespace OtelLoaderInfo

/-- Structure `LoaderInfo` (loaderinfo.go lines 19-26): information about an ELF passed
to the interpreter loaders. `host.FileID`, `pfelf.Reference` and
`libpf.Range` are collaborator types not under `src/`; they are opaque to
every operation in this file, so they are type parameters. -/
structure LoaderInfo (FileID ElfRef Range : Type) where
  fileID : FileID
  elfRef : ElfRef
  gaps : List Range

/-- Constructor `NewLoaderInfo` (loaderinfo.go lines 29-35): returns a populated
`LoaderInfo` struct from its three arguments. -/
def NewLoaderInfo {FileID ElfRef Range : Type}
    (fileID : FileID) (elfRef : ElfRef) (gaps : List Range) :
    LoaderInfo FileID ElfRef Range :=
  { fileID := fileID, elfRef := elfRef, gaps := gaps }

/-- Accessor `LoaderInfo.FileID` (loaderinfo.go lines 60-62). -/
def LoaderInfo.FileID {FileID ElfRef Range : Type}
    (i : LoaderInfo FileID ElfRef Range) : FileID :=
  i.fileID

/-- Accessor `LoaderInfo.Gaps` (loaderinfo.go lines 70-72). -/
def LoaderInfo.Gaps {FileID ElfRef Range : Type}
    (i : LoaderInfo FileID ElfRef Range) : List Range :=
  i.gaps

end OtelLoaderInfo

namespace OtelTPBase

/-- Concrete analyzer whose decode always fails, standing for an analyzer
whose bound function is compiled in an unrecognized variant. -/
def wDecodeFail : Analyzer :=
  { functionName := "aout_dump_debugregs",
    analyze := fun _ => .error "no signature match" }

/-- Second concrete always-failing analyzer with a distinct bound name. -/
def wDecodeFail2 : Analyzer :=
  { functionName := "tls_get_ctx",
    analyze := fun _ => .error "no signature match" }

/-- Concrete byte fixture handed out by the extraction stub. -/
def wCode : List Nat := [72, 139, 128]

/-- Concrete third-priority analyzer: decodes the fixture `wCode` to 3344. -/
def wThird : Analyzer :=
  { functionName := "x86_fsgsbase_read_task",
    analyze := fun code => if code = wCode then .ok 3344 else .error "no signature match" }

/-- Concrete analyzer decoding every byte window to the constant `n`. -/
def wConst (n : Nat) : Analyzer :=
  { functionName := "x86_fsgsbase_read_task", analyze := fun _ => .ok n }

/-- Symbol table containing only the third-priority analyzer's function. -/
def wLookupThird : String → Option Symbol := fun name =>
  if name = "x86_fsgsbase_read_task" then some { address := 81920, size := 64 } else none

/-- Symbol table resolving every name to the same address. -/
def wLookupAll : String → Option Symbol :=
  fun _ => some { address := 81920, size := 64 }

/-- Symbol table resolving no name at all. -/
def wLookupNone : String → Option Symbol := fun _ => none

/-- Extraction stub that always succeeds with the fixture `wCode`. -/
def wLoadOk : Nat → Except String (List Nat) := fun _ => .ok wCode

/-- Extraction stub that always fails, as when raising the memlock limit
is refused by the environment. -/
def wLoadFail : Nat → Except String (List Nat) :=
  fun _ => .error "failed to adjust rlimit"

/-- Concrete `loadKernelCode` environment: every external call succeeds,
the output map holds an 8-byte slot `[1,...,8]`, and the stack memory next
to `value0` holds the nonzero bytes `0xAB 0xAB 0xAB 0xAB`. -/
def wKEnv : KEnv :=
  { codedumpBytes := 8, addrUpdateOk := true, memlockOk := true, progOk := true,
    tracepointOk := true, lookupOk := true, clearOk := true,
    codeSlot := [1, 2, 3, 4, 5, 6, 7, 8], adjacentMem := [171, 171, 171, 171] }

end OtelTPBase

namespace OtelTPBase

/-- Analyzers whose bound name does not resolve are skipped: a prefix of
unresolved analyzers does not change the loop's result. -/
theorem analyzerLoop_append_none (lookup : String → Option Symbol)
    (loadCode : Nat → Except String (List Nat))
    (pre l : List Analyzer)
    (hpre : ∀ b ∈ pre, lookup b.functionName = none) :
    analyzerLoop lookup loadCode (pre ++ l) = analyzerLoop lookup loadCode l := by
  induction pre with
  | nil => rfl
  | cons a as ih =>
    have ha : lookup a.functionName = none := hpre a (List.mem_cons_self a as)
    have hstep : analyzerLoop lookup loadCode ((a :: as) ++ l)
        = analyzerLoop lookup loadCode (as ++ l) := by
      simp [analyzerLoop, ha]
    rw [hstep, ih (fun b hb => hpre b (List.mem_cons_of_mem a hb))]

/-- C1: the orchestrator iterates analyzers in order, skips (non-fatally)
each analyzer whose bound function name does not resolve in the kernel
symbol table, and stops at the first analyzer whose symbol resolves and
whose decode succeeds, returning that analyzer's decoded offset (here with
the decoded value inside the sanity bounds, as in the scenario where the
third-priority analyzer decodes 3344). -/
theorem loadTPBaseOffset_priority_first_success
    (lookup : String → Option Symbol) (loadCode : Nat → Except String (List Nat))
    (pre : List Analyzer) (a : Analyzer) (rest : List Analyzer)
    (sym : Symbol) (code : List Nat) (v : Nat)
    (hpre : ∀ b ∈ pre, lookup b.functionName = none)
    (hsym : lookup a.functionName = some sym)
    (hcode : loadCode sym.address = .ok code)
    (hdec : a.analyze code = .ok v)
    (hlo : 500 ≤ v) (hhi : v ≤ 20000) :
    loadTPBaseOffset lookup loadCode (pre ++ a :: rest) = (v, none) := by
  have hloop : analyzerLoop lookup loadCode (pre ++ a :: rest) = .ok v := by
    rw [analyzerLoop_append_none lookup loadCode pre _ hpre]
    simp [analyzerLoop, hsym, hcode, hdec]
  have hv0 : ¬ v = 0 := by omega
  have hb : ¬ (v < 500 ∨ v > 20000) := by omega
  simp [loadTPBaseOffset, hloop, hv0, hb]

/-- C1 witness: a symbol table containing only the third-priority
analyzer's function, whose fixture decodes to 3344, makes the orchestrator
return 3344. -/
theorem loadTPBaseOffset_priority_first_success_witness :
    loadTPBaseOffset wLookupThird wLoadOk [wDecodeFail, wDecodeFail2, wThird]
      = (3344, none) :=
  loadTPBaseOffset_priority_first_success wLookupThird wLoadOk
    [wDecodeFail, wDecodeFail2] wThird [] { address := 81920, size := 64 } wCode 3344
    (by decide) (by decide) rfl rfl (by decide) (by decide)

/-- C2: if the Extraction Bridge fails for an analyzer whose symbol
resolved, the orchestrator immediately returns that error (offset 0) and
no later analyzer is attempted: the result does not depend on `rest`. -/
theorem loadTPBaseOffset_extraction_fatal
    (lookup : String → Option Symbol) (loadCode : Nat → Except String (List Nat))
    (pre : List Analyzer) (a : Analyzer) (rest : List Analyzer)
    (sym : Symbol) (e : String)
    (hpre : ∀ b ∈ pre, lookup b.functionName = none)
    (hsym : lookup a.functionName = some sym)
    (hcode : loadCode sym.address = .error e) :
    loadTPBaseOffset lookup loadCode (pre ++ a :: rest) = (0, some (.bridge e)) := by
  have hloop : analyzerLoop lookup loadCode (pre ++ a :: rest) = .error (.bridge e) := by
    rw [analyzerLoop_append_none lookup loadCode pre _ hpre]
    simp [analyzerLoop, hsym, hcode]
  simp [loadTPBaseOffset, hloop]

/-- C2 witness: the first analyzer's extraction fails and the orchestrator
aborts even though a later analyzer would have decoded an in-bounds
offset. -/
theorem loadTPBaseOffset_extraction_fatal_witness :
    loadTPBaseOffset wLookupAll wLoadFail [wThird, wConst 600]
      = (0, some (.bridge "failed to adjust rlimit")) :=
  loadTPBaseOffset_extraction_fatal wLookupAll wLoadFail
    [] wThird [wConst 600] { address := 81920, size := 64 } "failed to adjust rlimit"
    (by decide) (by decide) rfl

/-- C3: if extraction succeeded but the analyzer's decode fails, the whole
attempt aborts (independently of any later analyzer) and the returned
error wraps the decode error together with the dump of the extracted
bytes. -/
theorem loadTPBaseOffset_decode_fatal
    (lookup : String → Option Symbol) (loadCode : Nat → Except String (List Nat))
    (pre : List Analyzer) (a : Analyzer) (rest : List Analyzer)
    (sym : Symbol) (code : List Nat) (e : String)
    (hpre : ∀ b ∈ pre, lookup b.functionName = none)
    (hsym : lookup a.functionName = some sym)
    (hcode : loadCode sym.address = .ok code)
    (hdec : a.analyze code = .error e) :
    loadTPBaseOffset lookup loadCode (pre ++ a :: rest)
      = (0, some (.decodeFailed e code)) := by
  have hloop : analyzerLoop lookup loadCode (pre ++ a :: rest)
      = .error (.decodeFailed e code) := by
    rw [analyzerLoop_append_none lookup loadCode pre _ hpre]
    simp [analyzerLoop, hsym, hcode, hdec]
  simp [loadTPBaseOffset, hloop]

/-- C3 witness: a decode failure on the fixture aborts with the decode
error and the extracted bytes attached, with a second analyzer present
that is never attempted. -/
theorem loadTPBaseOffset_decode_fatal_witness :
    loadTPBaseOffset wLookupAll wLoadOk [wDecodeFail, wConst 600]
      = (0, some (.decodeFailed "no signature match" wCode)) :=
  loadTPBaseOffset_decode_fatal wLookupAll wLoadOk
    [] wDecodeFail [wConst 600] { address := 81920, size := 64 } wCode "no signature match"
    (by decide) (by decide) rfl rfl

/-- C4: a nonzero decoded candidate offset that reaches the validation
step is accepted exactly when it lies in the closed interval
`[500, 20000]`; otherwise the orchestrator fails with the implausible
offset error. -/
theorem loadTPBaseOffset_validation_bounds
    (lookup : String → Option Symbol) (loadCode : Nat → Except String (List Nat))
    (pre : List Analyzer) (a : Analyzer) (rest : List Analyzer)
    (sym : Symbol) (code : List Nat) (v : Nat)
    (hpre : ∀ b ∈ pre, lookup b.functionName = none)
    (hsym : lookup a.functionName = some sym)
    (hcode : loadCode sym.address = .ok code)
    (hdec : a.analyze code = .ok v)
    (hv : v ≠ 0) :
    loadTPBaseOffset lookup loadCode (pre ++ a :: rest)
      = if 500 ≤ v ∧ v ≤ 20000 then (v, none) else (0, some (.implausibleOffset v)) := by
  have hloop : analyzerLoop lookup loadCode (pre ++ a :: rest) = .ok v := by
    rw [analyzerLoop_append_none lookup loadCode pre _ hpre]
    simp [analyzerLoop, hsym, hcode, hdec]
  by_cases hin : 500 ≤ v ∧ v ≤ 20000
  · have hb : ¬ (v < 500 ∨ v > 20000) := by omega
    simp [loadTPBaseOffset, hloop, hv, hb, hin]
  · have hb : v < 500 ∨ v > 20000 := by omega
    simp [loadTPBaseOffset, hloop, hv, hb, hin]

/-- C4 witness: boundary exactness — 499 and 20001 are rejected as
implausible, 500 and 20000 are accepted and returned unchanged. -/
theorem loadTPBaseOffset_validation_bounds_witness :
    loadTPBaseOffset wLookupAll wLoadOk [wConst 499] = (0, some (.implausibleOffset 499)) ∧
    loadTPBaseOffset wLookupAll wLoadOk [wConst 500] = (500, none) ∧
    loadTPBaseOffset wLookupAll wLoadOk [wConst 20000] = (20000, none) ∧
    loadTPBaseOffset wLookupAll wLoadOk [wConst 20001] = (0, some (.implausibleOffset 20001)) := by
  refine ⟨?_, ?_, ?_, ?_⟩
  · have h := loadTPBaseOffset_validation_bounds wLookupAll wLoadOk
      [] (wConst 499) [] { address := 81920, size := 64 } wCode 499
      (by decide) (by decide) rfl rfl (by decide)
    rw [if_neg (by omega)] at h
    exact h
  · have h := loadTPBaseOffset_validation_bounds wLookupAll wLoadOk
      [] (wConst 500) [] { address := 81920, size := 64 } wCode 500
      (by decide) (by decide) rfl rfl (by decide)
    rw [if_pos (by omega)] at h
    exact h
  · have h := loadTPBaseOffset_validation_bounds wLookupAll wLoadOk
      [] (wConst 20000) [] { address := 81920, size := 64 } wCode 20000
      (by decide) (by decide) rfl rfl (by decide)
    rw [if_pos (by omega)] at h
    exact h
  · have h := loadTPBaseOffset_validation_bounds wLookupAll wLoadOk
      [] (wConst 20001) [] { address := 81920, size := 64 } wCode 20001
      (by decide) (by decide) rfl rfl (by decide)
    rw [if_neg (by omega)] at h
    exact h

/-- C5: when the symbol table contains none of the analyzers' bound
function names, the orchestrator returns offset 0 with the
"no supported symbol found" error. -/
theorem loadTPBaseOffset_not_found
    (lookup : String → Option Symbol) (loadCode : Nat → Except String (List Nat))
    (analyzers : List Analyzer)
    (h : ∀ a ∈ analyzers, lookup a.functionName = none) :
    loadTPBaseOffset lookup loadCode analyzers = (0, some .noSymbolFound) := by
  have hloop : analyzerLoop lookup loadCode analyzers = .ok 0 := by
    have hh := analyzerLoop_append_none lookup loadCode analyzers [] h
    simpa [analyzerLoop] using hh
  simp [loadTPBaseOffset, hloop]

/-- C5 witness: a symbol table resolving no name yields the not-found
error with offset 0. -/
theorem loadTPBaseOffset_not_found_witness :
    loadTPBaseOffset wLookupNone wLoadOk [wDecodeFail, wThird]
      = (0, some .noSymbolFound) :=
  loadTPBaseOffset_not_found wLookupNone wLoadOk [wDecodeFail, wThird] (by decide)

/-- C9: a decode that succeeds with value 0 is indistinguishable from the
not-found sentinel: the orchestrator reports the "no supported symbol
found" error, not an implausible-offset error. -/
theorem loadTPBaseOffset_zero_sentinel
    (lookup : String → Option Symbol) (loadCode : Nat → Except String (List Nat))
    (pre : List Analyzer) (a : Analyzer) (rest : List Analyzer)
    (sym : Symbol) (code : List Nat)
    (hpre : ∀ b ∈ pre, lookup b.functionName = none)
    (hsym : lookup a.functionName = some sym)
    (hcode : loadCode sym.address = .ok code)
    (hdec : a.analyze code = .ok 0) :
    loadTPBaseOffset lookup loadCode (pre ++ a :: rest)
      = (0, some .noSymbolFound) := by
  have hloop : analyzerLoop lookup loadCode (pre ++ a :: rest) = .ok 0 := by
    rw [analyzerLoop_append_none lookup loadCode pre _ hpre]
    simp [analyzerLoop, hsym, hcode, hdec]
  simp [loadTPBaseOffset, hloop]

/-- C9 witness: an analyzer decoding the fixture to 0 produces the
not-found error, not the implausible-offset error. -/
theorem loadTPBaseOffset_zero_sentinel_witness :
    loadTPBaseOffset wLookupAll wLoadOk [wConst 0] = (0, some .noSymbolFound) :=
  loadTPBaseOffset_zero_sentinel wLookupAll wLoadOk
    [] (wConst 0) [] { address := 81920, size := 64 } wCode
    (by decide) (by decide) rfl rfl

end OtelTPBase

namespace OtelTPBase

/-- C6: every call to the Code Extraction Bridge either returns a byte
slice of exactly the process-wide dump length together with a nil error,
or a nil slice together with a non-nil error; never a partial result. The
hypothesis records the (spec-modelled) fact that the `codedump_code` map
value size is the dump length, so the `Lookup` fills the whole buffer. -/
theorem loadKernelCode_total_or_error (env : KEnv) (addr : Nat)
    (hlen : env.codeSlot.length = env.codedumpBytes) :
    (∃ bs, (loadKernelCode env addr).1 = (some bs, none)
        ∧ bs.length = env.codedumpBytes) ∨
    ((loadKernelCode env addr).1.1 = none
        ∧ ∃ e, (loadKernelCode env addr).1.2 = some e) := by
  obtain ⟨N, au, ml, pg, tp, lk, cl, slot, adj⟩ := env
  cases au <;> cases ml <;> cases pg <;> cases tp <;> cases lk <;> cases cl <;>
    simp_all [loadKernelCode]

/-- C6 witness: in the all-succeeding environment the bridge returns the
full 8-byte dump with no error. -/
theorem loadKernelCode_total_or_error_witness :
    (∃ bs, (loadKernelCode wKEnv 4096).1 = (some bs, none)
        ∧ bs.length = wKEnv.codedumpBytes) ∨
    ((loadKernelCode wKEnv 4096).1.1 = none
        ∧ ∃ e, (loadKernelCode wKEnv 4096).1.2 = some e) :=
  loadKernelCode_total_or_error wKEnv 4096 rfl

/-- C7: evaluation at the failing input. In an environment where every
external call succeeds, the dump length is 8, the output slot held
`[1,...,8]` and the memory adjacent to the local `value0 uint32` holds
nonzero bytes, the call succeeds, yet the output slot afterwards is
`[0,0,0,0,0xAB,0xAB,0xAB,0xAB]` — not the all-zero buffer: the clearing
`Update` sources a 4-byte zero through `unsafe.Pointer`, so only the
first four bytes of the fixed-length slot are guaranteed zero. -/
theorem loadKernelCode_clear_leaves_nonzero_bytes :
    (loadKernelCode wKEnv 4096).1 = (some [1, 2, 3, 4, 5, 6, 7, 8], none) ∧
    (loadKernelCode wKEnv 4096).2.codeSlot = [0, 0, 0, 0, 171, 171, 171, 171] ∧
    (loadKernelCode wKEnv 4096).2.codeSlot ≠ List.replicate 8 0 := by
  decide

/-- C8: on every exit path of the Code Extraction Bridge, success or
error, the final state holds no acquired resource: the memlock limit is
not left raised, the restricted program object is not left open, and the
tracepoint attachment is not left live. -/
theorem loadKernelCode_releases_resources (env : KEnv) (addr : Nat) :
    (loadKernelCode env addr).2.memlockRaised = false ∧
    (loadKernelCode env addr).2.progOpen = false ∧
    (loadKernelCode env addr).2.attached = false := by
  obtain ⟨N, au, ml, pg, tp, lk, cl, slot, adj⟩ := env
  cases au <;> cases ml <;> cases pg <;> cases tp <;> cases lk <;> cases cl <;>
    simp [loadKernelCode]

end OtelTPBase

namespace OtelLoaderInfo

/-- C10: accessor round-trip — the LoaderInfo built by `NewLoaderInfo f r g`
returns `f` from `FileID()` and `g` from `Gaps()`, unchanged. -/
theorem NewLoaderInfo_accessor_roundtrip {F E R : Type}
    (f : F) (r : E) (g : List R) :
    (NewLoaderInfo f r g).FileID = f ∧ (NewLoaderInfo f r g).Gaps = g :=
  ⟨rfl, rfl⟩

end OtelLoaderInfo
